import Mathlib

/-!
Verification of the sales-dashboard visualization module
(`app/visualization.py`) against its specification.

The module has two functions:

* `create_sales_plot(sales_data, product_name)` builds a figure whose x
  axis is the list of dates of `sales_data` and whose y axis is the
  running total (left-to-right prefix sum) of the `sales` amounts.
* `create_interactive_dashboard(products, db_connector)` returns a
  sentinel for an empty product list; otherwise it fetches the first
  product's sales, builds the initially visible figure from them, and
  then loops over all products, fetching each product's sales again and
  building one dropdown button per product carrying that product's
  dates and running totals.

Dates are modelled as natural numbers (e.g. 20240101 for 2024-01-01),
sales amounts as integers (the spec allows any signed number), and a
fetch that may fail as a function into `Except DataUnavailable _`,
mirroring an exception that propagates out of the Python loop.
-/

set_option autoImplicit false

namespace SalesDashboard

/-- A raw sales row as returned by `get_sales_data`: a date and a signed
sales amount. -/
structure SalesPoint where
  date : Nat
  sales : Int
deriving Repr, DecidableEq

/-- A product row as returned by `get_all_products`. -/
structure Product where
  product_id : Nat
  product_name : String
deriving Repr, DecidableEq

/-- The error condition raised when sales data cannot be fetched for a
product; carries the offending product id. -/
structure DataUnavailable where
  product_id : Nat
deriving Repr, DecidableEq

/-- The running-total loop of `create_sales_plot` (and of the dropdown
pass of `create_interactive_dashboard`):

    running_total = 0
    for sale in sales:
        running_total += sale
        cumulative_sales.append(running_total)

`running_total` is the accumulator value entering the loop. -/
def cumulativeLoop (running_total : Int) : List Int → List Int
  | [] => []
  | sale :: rest =>
      (running_total + sale) :: cumulativeLoop (running_total + sale) rest

/-- `cumulative_sales sales` is the list built by the running-total loop
started at 0, exactly as in the source. -/
def cumulative_sales (sales : List Int) : List Int :=
  cumulativeLoop 0 sales

/-- The data content of the Plotly figure produced by
`create_sales_plot`: the x array (dates), the y array (cumulative
sales) and the title. -/
structure Figure where
  x : List Nat
  y : List Int
  title : String
deriving Repr, DecidableEq

/-- Embedding of `create_sales_plot`: projects the dates and sales out
of `sales_data`, runs the running-total loop, and packages the result
as the figure's x/y arrays with the formatted title. -/
def create_sales_plot (sales_data : List SalesPoint) (product_name : String) :
    Figure :=
  { x := sales_data.map (·.date)
  , y := cumulative_sales (sales_data.map (·.sales))
  , title := "Cumulative Sales Over Time - " ++ product_name }

/-- One dropdown button of the dashboard: its label and the x/y arrays
of its `update` payload. -/
structure SelectorEntry where
  label : String
  xs : List Nat
  ys : List Int
deriving Repr, DecidableEq

/-- The result of `create_interactive_dashboard`: either the sentinel
"<p>No products available</p>" returned for an empty product list, or a
dashboard holding the initially visible figure's x/y arrays and the
dropdown button list. -/
inductive DashboardResult where
  | noProducts : DashboardResult
  | dashboard (visible_x : List Nat) (visible_y : List Int)
      (buttons : List SelectorEntry) : DashboardResult
deriving Repr, DecidableEq

/-- The dropdown button list of a dashboard result; the sentinel
no-products page contains no dropdown, hence an empty selector. -/
def DashboardResult.selector : DashboardResult → List SelectorEntry
  | .noProducts => []
  | .dashboard _ _ buttons => buttons

/-- The x array of the visible chart of a dashboard result. -/
def DashboardResult.visible_x : DashboardResult → List Nat
  | .noProducts => []
  | .dashboard vx _ _ => vx

/-- The y array of the visible chart of a dashboard result. -/
def DashboardResult.visible_y : DashboardResult → List Int
  | .noProducts => []
  | .dashboard _ vy _ => vy

/-- The button-building loop of `create_interactive_dashboard`: for each
product in order it calls `fetch` (i.e. `db_connector.get_sales_data`),
recomputes the running totals, and appends a button with the product's
name as label and the dates/cumulative sales as the update payload. A
fetch failure propagates (the Python exception aborts the loop). -/
def build_buttons (fetch : Nat → Except DataUnavailable (List SalesPoint)) :
    List Product → Except DataUnavailable (List SelectorEntry)
  | [] => .ok []
  | product :: rest =>
      match fetch product.product_id with
      | .error e => .error e
      | .ok product_sales =>
          match build_buttons fetch rest with
          | .error e => .error e
          | .ok buttons =>
              .ok ({ label := product.product_name
                   , xs := product_sales.map (·.date)
                   , ys := cumulative_sales (product_sales.map (·.sales)) }
                   :: buttons)

/-- Embedding of `create_interactive_dashboard`: returns the sentinel
for an empty product list; otherwise fetches the first product's sales,
builds the visible figure from them via `create_sales_plot`, then runs
the button loop over all products (fetching the first product a second
time) and attaches the buttons. A fetch failure anywhere propagates and
no dashboard is produced. -/
def create_interactive_dashboard (products : List Product)
    (fetch : Nat → Except DataUnavailable (List SalesPoint)) :
    Except DataUnavailable DashboardResult :=
  match products with
  | [] => .ok .noProducts
  | first_product :: rest =>
      match fetch first_product.product_id with
      | .error e => .error e
      | .ok sales_data =>
          match build_buttons fetch (first_product :: rest) with
          | .error e => .error e
          | .ok buttons =>
              .ok (.dashboard
                    ((create_sales_plot sales_data first_product.product_name).x)
                    ((create_sales_plot sales_data first_product.product_name).y)
                    buttons)

/-- The sequence of product ids passed to `fetch` by the button loop, in
call order: each product's id is recorded at the moment of the call, and
the loop stops after a failing call. -/
def build_buttons_trace (fetch : Nat → Except DataUnavailable (List SalesPoint)) :
    List Product → List Nat
  | [] => []
  | product :: rest =>
      product.product_id ::
        match fetch product.product_id with
        | .error _ => []
        | .ok _ => build_buttons_trace fetch rest

/-- The sequence of product ids passed to `fetch` by one call of
`create_interactive_dashboard`, in call order: for a non-empty product
list the first product's id is fetched once for the initial figure, and
then the button loop fetches every product (the first included) again. -/
def dashboard_fetch_trace (products : List Product)
    (fetch : Nat → Except DataUnavailable (List SalesPoint)) : List Nat :=
  match products with
  | [] => []
  | first_product :: rest =>
      first_product.product_id ::
        match fetch first_product.product_id with
        | .error _ => []
        | .ok _ => build_buttons_trace fetch (first_product :: rest)

/-! ### Lemmas about the running-total loop -/

theorem cumulativeLoop_length (running_total : Int) (sales : List Int) :
    (cumulativeLoop running_total sales).length = sales.length := by
  induction sales generalizing running_total with
  | nil => rfl
  | cons sale rest ih => simp [cumulativeLoop, ih]

theorem cumulativeLoop_getElem (sales : List Int) (running_total : Int)
    (i : Nat) (hi : i < sales.length) :
    (cumulativeLoop running_total sales)[i]? =
      some (running_total + (sales.take (i + 1)).sum) := by
  induction sales generalizing running_total i with
  | nil => exact absurd hi (by simp)
  | cons sale rest ih =>
      cases i with
      | zero => simp [cumulativeLoop]
      | succ n =>
          have hn : n < rest.length := by simpa using hi
          have := ih (running_total + sale) n hn
          simp only [cumulativeLoop, List.getElem?_cons_succ, this,
            List.take_succ_cons, List.sum_cons]
          congr 1
          ring

theorem cumulative_sales_length (sales : List Int) :
    (cumulative_sales sales).length = sales.length :=
  cumulativeLoop_length 0 sales

theorem cumulative_sales_getElem (sales : List Int) (i : Nat)
    (hi : i < sales.length) :
    (cumulative_sales sales)[i]? = some ((sales.take (i + 1)).sum) := by
  simpa using cumulativeLoop_getElem sales 0 i hi

/-- C1: for every sequence of sales points, the cumulative series built
by the running-total loop of `create_sales_plot` has the same length as
the input, its i-th running total equals the left-to-right prefix sum
of the first i+1 amounts, and the dates are carried over verbatim as
the figure's x array. -/
theorem create_sales_plot_prefix_sum (sales_data : List SalesPoint)
    (product_name : String) :
    (create_sales_plot sales_data product_name).y.length = sales_data.length ∧
    (create_sales_plot sales_data product_name).x = sales_data.map (·.date) ∧
    ∀ i, i < sales_data.length →
      (create_sales_plot sales_data product_name).y[i]? =
        some (((sales_data.take (i + 1)).map (·.sales)).sum) := by
  refine ⟨?_, rfl, ?_⟩
  · simpa [create_sales_plot] using
      cumulative_sales_length (sales_data.map (·.sales))
  · intro i hi
    have hlen : i < (sales_data.map (·.sales)).length := by simpa using hi
    have := cumulative_sales_getElem (sales_data.map (·.sales)) i hlen
    simpa [create_sales_plot, List.map_take] using this

/-- Witness for C1 at a concrete input: the second running total of the
two-point series [(2024-01-01, 10), (2024-01-02, 5)] is 10 + 5 = 15. -/
theorem create_sales_plot_prefix_sum_witness :
    (create_sales_plot [⟨20240101, 10⟩, ⟨20240102, 5⟩] "A").y[1]? =
      some (((([⟨20240101, 10⟩, ⟨20240102, 5⟩] :
        List SalesPoint).take 2).map (·.sales)).sum) :=
  (create_sales_plot_prefix_sum [⟨20240101, 10⟩, ⟨20240102, 5⟩] "A").2.2
    1 (by decide)

/-- C7: the running-total computation of `create_sales_plot` is total
and error-free: it accepts any signed amounts (the length law holds for
every input, with no validation rejecting negatives), an empty input
yields an empty output, and a single point yields a running total equal
to that point's amount. -/
theorem create_sales_plot_total_on_all_inputs :
    (∀ (sales_data : List SalesPoint) (name : String),
       (create_sales_plot sales_data name).y.length = sales_data.length) ∧
    (∀ name : String,
       (create_sales_plot [] name).x = [] ∧
       (create_sales_plot [] name).y = []) ∧
    (∀ (pt : SalesPoint) (name : String),
       (create_sales_plot [pt] name).x = [pt.date] ∧
       (create_sales_plot [pt] name).y = [pt.sales]) := by
  refine ⟨?_, ?_, ?_⟩
  · intro sales_data name
    simpa [create_sales_plot] using
      cumulative_sales_length (sales_data.map (·.sales))
  · intro name
    exact ⟨rfl, rfl⟩
  · intro pt name
    refine ⟨rfl, ?_⟩
    simp [create_sales_plot, cumulative_sales, cumulativeLoop]

theorem cumulativeLoop_chain (sales : List Int) (running_total : Int)
    (h : ∀ a ∈ sales, 0 ≤ a) :
    List.Chain (· ≤ ·) running_total (cumulativeLoop running_total sales) := by
  induction sales generalizing running_total with
  | nil => exact .nil
  | cons sale rest ih =>
      refine .cons ?_ (ih (running_total + sale) ?_)
      · have : (0 : Int) ≤ sale := h sale (by simp)
        omega
      · intro a ha
        exact h a (by simp [ha])

/-- C10: if every amount in the input is nonnegative, the running-total
sequence produced by the accumulator loop of `create_sales_plot` is
monotonically nondecreasing (each adjacent pair satisfies ≤). -/
theorem create_sales_plot_monotone (sales_data : List SalesPoint)
    (name : String) (h : ∀ pt ∈ sales_data, 0 ≤ pt.sales) :
    List.Chain' (· ≤ ·) (create_sales_plot sales_data name).y := by
  have hall : ∀ a ∈ sales_data.map (·.sales), 0 ≤ a := by
    intro a ha
    rcases List.mem_map.mp ha with ⟨pt, hpt, rfl⟩
    exact h pt hpt
  have hchain := cumulativeLoop_chain (sales_data.map (·.sales)) 0 hall
  have hchain' : List.Chain' (· ≤ ·)
      ((0 : Int) :: cumulativeLoop 0 (sales_data.map (·.sales))) := hchain
  exact hchain'.tail

/-- Witness for C10 at a concrete input: the running totals of amounts
[10, 5, 0] form a nondecreasing sequence. -/
theorem create_sales_plot_monotone_witness :
    List.Chain' (· ≤ ·)
      (create_sales_plot [⟨20240101, 10⟩, ⟨20240102, 5⟩, ⟨20240103, 0⟩] "A").y :=
  create_sales_plot_monotone
    [⟨20240101, 10⟩, ⟨20240102, 5⟩, ⟨20240103, 0⟩] "A" (by decide)

/-! ### Lemmas about the button loop -/

theorem build_buttons_ok (fetch : Nat → Except DataUnavailable (List SalesPoint)) :
    ∀ (ps : List Product) (bs : List SelectorEntry),
      build_buttons fetch ps = .ok bs →
      bs.length = ps.length ∧ bs.map (·.label) = ps.map (·.product_name) := by
  intro ps
  induction ps with
  | nil =>
      intro bs h
      injection h with h
      subst h
      exact ⟨rfl, rfl⟩
  | cons p rest ih =>
      intro bs h
      simp only [build_buttons] at h
      split at h
      · simp at h
      · split at h
        · simp at h
        · rename_i bs' hrest
          injection h with h
          subst h
          obtain ⟨hl, hm⟩ := ih bs' hrest
          exact ⟨by simp [hl], by simp [hm]⟩

theorem build_buttons_error (fetch : Nat → Except DataUnavailable (List SalesPoint)) :
    ∀ (ps : List Product) (e : DataUnavailable),
      build_buttons fetch ps = .error e →
      ∃ q ∈ ps, fetch q.product_id = .error e := by
  intro ps
  induction ps with
  | nil =>
      intro e h
      simp [build_buttons] at h
  | cons p rest ih =>
      intro e h
      simp only [build_buttons] at h
      split at h
      · rename_i e' heq
        injection h with h
        subst h
        exact ⟨p, by simp, heq⟩
      · split at h
        · rename_i e' hrest
          injection h with h
          subst h
          obtain ⟨q, hq, hfq⟩ := ih e' hrest
          exact ⟨q, by simp [hq], hfq⟩
        · simp at h

theorem build_buttons_ok_fetch (fetch : Nat → Except DataUnavailable (List SalesPoint)) :
    ∀ (ps : List Product) (bs : List SelectorEntry),
      build_buttons fetch ps = .ok bs →
      ∀ p ∈ ps, (fetch p.product_id).isOk = true := by
  intro ps
  induction ps with
  | nil =>
      intro bs _ p hp
      simp at hp
  | cons q rest ih =>
      intro bs h p hp
      simp only [build_buttons] at h
      split at h
      · simp at h
      · rename_i sales hfetch
        split at h
        · simp at h
        · rename_i bs' hrest
          rcases List.mem_cons.mp hp with hpq | hpr
          · subst hpq
            rw [hfetch]
            rfl
          · exact ih bs' hrest p hpr

theorem create_interactive_dashboard_error (products : List Product)
    (fetch : Nat → Except DataUnavailable (List SalesPoint))
    (e : DataUnavailable)
    (h : create_interactive_dashboard products fetch = .error e) :
    ∃ q ∈ products, fetch q.product_id = .error e := by
  cases products with
  | nil => simp [create_interactive_dashboard] at h
  | cons first_product rest =>
      simp only [create_interactive_dashboard] at h
      split at h
      · rename_i e' heq
        injection h with h
        subst h
        exact ⟨first_product, by simp, heq⟩
      · rename_i sales_data hfetch
        split at h
        · rename_i e' hbuttons
          injection h with h
          subst h
          exact build_buttons_error fetch _ e' hbuttons
        · simp at h

theorem create_interactive_dashboard_ok_fetch (products : List Product)
    (fetch : Nat → Except DataUnavailable (List SalesPoint))
    (r : DashboardResult)
    (h : create_interactive_dashboard products fetch = .ok r) :
    ∀ p ∈ products, (fetch p.product_id).isOk = true := by
  cases products with
  | nil =>
      intro p hp
      simp at hp
  | cons first_product rest =>
      simp only [create_interactive_dashboard] at h
      split at h
      · simp at h
      · rename_i sales_data hfetch
        split at h
        · simp at h
        · rename_i buttons hbuttons
          exact build_buttons_ok_fetch fetch _ buttons hbuttons

/-! ### Dashboard claims -/

/-- C5: assembling with an empty product list returns the sentinel
no-data result (no dropdown, no visible series), does not fail, and
never invokes `fetch` (the fetch trace is empty). -/
theorem create_interactive_dashboard_empty
    (fetch : Nat → Except DataUnavailable (List SalesPoint)) :
    create_interactive_dashboard [] fetch = .ok .noProducts ∧
    dashboard_fetch_trace [] fetch = [] :=
  ⟨rfl, rfl⟩

/-- C6: whenever assembly succeeds, the dropdown button list has one
entry per product, in catalog order, each labelled with the product's
name. -/
theorem create_interactive_dashboard_selector_labels (products : List Product)
    (fetch : Nat → Except DataUnavailable (List SalesPoint))
    (r : DashboardResult)
    (h : create_interactive_dashboard products fetch = .ok r) :
    r.selector.length = products.length ∧
    r.selector.map (·.label) = products.map (·.product_name) := by
  cases products with
  | nil =>
      injection h with h
      subst h
      exact ⟨rfl, rfl⟩
  | cons first_product rest =>
      simp only [create_interactive_dashboard] at h
      split at h
      · simp at h
      · rename_i sales_data hfetch
        split at h
        · simp at h
        · rename_i buttons hbuttons
          injection h with h
          subst h
          exact build_buttons_ok fetch _ buttons hbuttons

/-- Witness for C6 at a concrete input: one product named "A" yields a
one-button selector labelled "A". -/
theorem create_interactive_dashboard_selector_labels_witness :
    (DashboardResult.dashboard [] [] [⟨"A", [], []⟩]).selector.length =
      ([⟨1, "A"⟩] : List Product).length ∧
    (DashboardResult.dashboard [] [] [⟨"A", [], []⟩]).selector.map (·.label) =
      ([⟨1, "A"⟩] : List Product).map (·.product_name) :=
  create_interactive_dashboard_selector_labels [⟨1, "A"⟩] (fun _ => .ok [])
    (.dashboard [] [] [⟨"A", [], []⟩]) rfl

/-- C2: whenever assembly succeeds on a non-empty product list, the
first dropdown button's x/y payload equals the visible chart's x/y
arrays — no drift between the initial render and selector entry 0. -/
theorem create_interactive_dashboard_no_drift (first_product : Product)
    (rest : List Product)
    (fetch : Nat → Except DataUnavailable (List SalesPoint))
    (r : DashboardResult)
    (h : create_interactive_dashboard (first_product :: rest) fetch = .ok r) :
    ∃ b, r.selector.head? = some b ∧
      b.xs = r.visible_x ∧ b.ys = r.visible_y := by
  simp only [create_interactive_dashboard] at h
  split at h
  · simp at h
  · rename_i sales_data hfetch
    split at h
    · simp at h
    · rename_i buttons hbuttons
      injection h with h
      subst h
      simp only [build_buttons, hfetch] at hbuttons
      split at hbuttons
      · simp at hbuttons
      · rename_i bs hrest
        injection hbuttons with hbuttons
        subst hbuttons
        exact ⟨_, rfl, rfl, rfl⟩

/-- Witness for C2 at a concrete input: with one product whose series
is [(2024-01-01, 10)], the first button's payload equals the visible
chart's arrays. -/
theorem create_interactive_dashboard_no_drift_witness :
    ∃ b, (DashboardResult.dashboard [20240101] [10]
        [⟨"A", [20240101], [10]⟩]).selector.head? = some b ∧
      b.xs = (DashboardResult.dashboard [20240101] [10]
        [⟨"A", [20240101], [10]⟩]).visible_x ∧
      b.ys = (DashboardResult.dashboard [20240101] [10]
        [⟨"A", [20240101], [10]⟩]).visible_y :=
  create_interactive_dashboard_no_drift ⟨1, "A"⟩ []
    (fun _ => .ok [⟨20240101, 10⟩])
    (.dashboard [20240101] [10] [⟨"A", [20240101], [10]⟩]) rfl

/-- C4: if `fetch` fails for some product in the list and fetch errors
identify the queried product id, then assembly produces no artifact at
all: it returns a `DataUnavailable` error carrying the id of a product
of the list whose fetch fails. -/
theorem create_interactive_dashboard_fail_closed (products : List Product)
    (fetch : Nat → Except DataUnavailable (List SalesPoint))
    (hid : ∀ i e, fetch i = .error e → e.product_id = i)
    (p : Product) (hp : p ∈ products)
    (hf : (fetch p.product_id).isOk = false) :
    ∃ q ∈ products,
      (fetch q.product_id).isOk = false ∧
      create_interactive_dashboard products fetch = .error ⟨q.product_id⟩ := by
  cases hres : create_interactive_dashboard products fetch with
  | ok r =>
      have hok := create_interactive_dashboard_ok_fetch products fetch r hres p hp
      rw [hok] at hf
      exact Bool.noConfusion hf
  | error e =>
      obtain ⟨q, hq, hfq⟩ := create_interactive_dashboard_error products fetch e hres
      have hqid := hid q.product_id e hfq
      refine ⟨q, hq, ?_, ?_⟩
      · rw [hfq]
        rfl
      · cases e with
        | mk x =>
            simp only [DataUnavailable.product_id] at hqid
            subst hqid
            rfl

/-- Witness for C4 at a concrete input: an always-failing fetch makes
assembly of one product fail with `DataUnavailable` carrying that
product's id. -/
theorem create_interactive_dashboard_fail_closed_witness :
    ∃ q ∈ ([⟨1, "A"⟩] : List Product),
      (((fun i => (.error ⟨i⟩ : Except DataUnavailable (List SalesPoint)))
          q.product_id).isOk = false) ∧
      create_interactive_dashboard [⟨1, "A"⟩]
          (fun i => .error ⟨i⟩) = .error ⟨q.product_id⟩ :=
  create_interactive_dashboard_fail_closed [⟨1, "A"⟩] (fun i => .error ⟨i⟩)
    (by
      intro i e h
      injection h with h
      rw [← h])
    ⟨1, "A"⟩ (by simp) rfl

/-- C8: the worked example of the spec: two products A and B, with
A's raw sales [(2024-01-01, 10), (2024-01-02, 5)] and B's
[(2024-01-01, -3)], yield a visible series [(2024-01-01, 10),
(2024-01-02, 15)], button "A" carrying that same series and button "B"
carrying [(2024-01-01, -3)]. -/
theorem create_interactive_dashboard_example :
    create_interactive_dashboard [⟨1, "A"⟩, ⟨2, "B"⟩]
        (fun i => if i = 1 then .ok [⟨20240101, 10⟩, ⟨20240102, 5⟩]
                  else .ok [⟨20240101, -3⟩]) =
      .ok (.dashboard [20240101, 20240102] [10, 15]
        [⟨"A", [20240101, 20240102], [10, 15]⟩,
         ⟨"B", [20240101], [-3]⟩]) := by
  rfl

/-- C9: a product with no recorded sales is a valid, displayable state:
one product "A" with an empty fetched series assembles successfully
into an empty visible series and a selector [("A", [])]. -/
theorem create_interactive_dashboard_empty_series_example :
    create_interactive_dashboard [⟨1, "A"⟩] (fun _ => .ok []) =
      .ok (.dashboard [] [] [⟨"A", [], []⟩]) := by
  rfl

/-! ### Fetch-call counting (temporal claim) -/

theorem build_buttons_trace_eq
    (fetch : Nat → Except DataUnavailable (List SalesPoint)) :
    ∀ ps : List Product,
      (∀ p ∈ ps, (fetch p.product_id).isOk = true) →
      build_buttons_trace fetch ps = ps.map (·.product_id) := by
  intro ps
  induction ps with
  | nil => intro _; rfl
  | cons p rest ih =>
      intro hok
      have hp := hok p (by simp)
      simp only [build_buttons_trace]
      cases hfp : fetch p.product_id with
      | error e =>
          rw [hfp] at hp
          exact Bool.noConfusion hp
      | ok v =>
          simp [ih (fun q hq => hok q (by simp [hq]))]

/-- C3 counterexample: with a single product of id 1 and a fetch that
always succeeds, one dashboard assembly passes id 1 to `fetch` twice
(once for the initial figure, once in the button loop), so `fetch` is
not invoked exactly once per product. -/
theorem dashboard_fetch_trace_counterexample :
    dashboard_fetch_trace [⟨1, "A"⟩]
      (fun _ => .ok []) = [1, 1] ∧
    (dashboard_fetch_trace [⟨1, "A"⟩]
      (fun _ => .ok [])).count 1 ≠ 1 := by
  exact ⟨rfl, by decide⟩

/-- C3 amended: for a non-empty product list on which every fetch
succeeds, one dashboard assembly invokes `fetch` once per product in
catalog order in the button loop, plus one additional initial call for
`products[0]` — so the initially visible product is fetched (and its
running totals recomputed) twice, every other product once. -/
theorem dashboard_fetch_trace_eq (first_product : Product)
    (rest : List Product)
    (fetch : Nat → Except DataUnavailable (List SalesPoint))
    (hok : ∀ p ∈ first_product :: rest, (fetch p.product_id).isOk = true) :
    dashboard_fetch_trace (first_product :: rest) fetch =
      first_product.product_id ::
        (first_product :: rest).map (·.product_id) := by
  have h1 := hok first_product (by simp)
  simp only [dashboard_fetch_trace]
  cases hfp : fetch first_product.product_id with
  | error e =>
      rw [hfp] at h1
      exact Bool.noConfusion h1
  | ok v =>
      simp [build_buttons_trace_eq fetch _ hok]

/-- Witness for the amended C3 at a concrete input: products with ids
1 and 2 produce the fetch-call sequence [1, 1, 2]. -/
theorem dashboard_fetch_trace_eq_witness :
    dashboard_fetch_trace [⟨1, "A"⟩, ⟨2, "B"⟩] (fun _ => .ok []) =
      (⟨1, "A"⟩ : Product).product_id ::
        ([⟨1, "A"⟩, ⟨2, "B"⟩] : List Product).map (·.product_id) :=
  dashboard_fetch_trace_eq ⟨1, "A"⟩ [⟨2, "B"⟩] (fun _ => .ok [])
    (by intro p hp; rfl)

end SalesDashboard
